import Mathlib

/-!
# Verification development for the testisft testing-platform server

Shallow embedding of the core of `server.js` (the out-of-band
verification/registration pipeline and the answer-scoring engine) together
with proofs of the specified properties.

Conventions of the embedding:
* JSON records become structures; a field that may be absent from the
  untrusted client JSON becomes an `Option`.
* Timestamps are integers (milliseconds since the epoch), so the JS
  comparison `new Date(v.expiresAt) > new Date()` becomes `now < v.expiresAt`.
* A JS `TypeError` thrown by dereferencing `undefined` is modelled by
  `Except.error`, which aborts the whole request, exactly as the thrown
  exception aborts the Express handler.
* Sources of nondeterminism (`Math.random`, `uuidv4`, the wall clock,
  `bcrypt.hashSync`) are passed in as explicit parameters.
* `score` is computed in `ℚ`; the JS code computes the same formula in
  binary floating point.
-/

deriving instance DecidableEq for Except

namespace TestisFT

/-- JS `String.prototype.toLowerCase` on the character data (ASCII case folding,
written over `String.data` so that it evaluates by kernel reduction). -/
def jsToLower (s : String) : String :=
  ⟨s.data.map Char.toLower⟩

/-- JS `String.prototype.trim`: drop leading and trailing whitespace. -/
def jsTrim (s : String) : String :=
  ⟨((s.data.dropWhile Char.isWhitespace).reverse.dropWhile Char.isWhitespace).reverse⟩

/-- An answer option of a stored question (`{id, text, correct}` in `tests.json`). -/
structure QOption where
  id : String
  text : String
  correct : Bool
deriving DecidableEq

/-- A question of a stored test. `type` is `"multiple-choice"`, `"multiple-answer"`
or `"text"`; `correctAnswer` is an optional field used by text questions. -/
structure Question where
  id : String
  type : String
  options : List QOption
  correctAnswer : Option String
deriving DecidableEq

/-- A stored test (only the fields the scoring engine reads). -/
structure Test where
  id : String
  questions : List Question
deriving DecidableEq

/-- A submitted answer (`{questionId, optionId?, selectedOptions?, text?}`).
The three payload fields are optional because the client JSON may omit them. -/
structure Answer where
  questionId : String
  optionId : Option String
  selectedOptions : Option (List String)
  text : Option String
deriving DecidableEq

/-- Grade one submitted answer against the question it matched, following the
`answers.map` callback of `POST /api/results`:

* `multiple-choice`: `correct = answer.optionId === correctOption.id` where
  `correctOption = question.options.find(o => o.correct)`; if no stored option is
  flagged correct, reading `.id` of `undefined` throws — modelled by `.error ()`.
* `multiple-answer`: guarded by `answer.selectedOptions && Array.isArray(...)`,
  so a missing selection list yields `correct = false`; otherwise correct iff
  every correct option id is selected and no incorrect option id is selected.
* `text`: `answer.text.trim().toLowerCase() === question.correctAnswer.trim().toLowerCase()`;
  a missing `text` or `correctAnswer` string throws — modelled by `.error ()`.
* any other `type` string leaves `correct = false`. -/
def gradeMatched (question : Question) (answer : Answer) : Except Unit Bool :=
  if question.type == "multiple-choice" then
    match question.options.find? (fun o => o.correct) with
    | none => .error ()
    | some correctOption => .ok (answer.optionId == some correctOption.id)
  else if question.type == "multiple-answer" then
    match answer.selectedOptions with
    | none => .ok false
    | some selected =>
      let correctOptions := (question.options.filter (fun o => o.correct)).map (fun o => o.id)
      let incorrectOptions := (question.options.filter (fun o => !o.correct)).map (fun o => o.id)
      let allCorrectSelected := correctOptions.all (fun i => selected.contains i)
      let noIncorrectSelected := !(selected.any (fun i => incorrectOptions.contains i))
      .ok (allCorrectSelected && noIncorrectSelected)
  else if question.type == "text" then
    match answer.text, question.correctAnswer with
    | some t, some ca => .ok (jsToLower (jsTrim t) == jsToLower (jsTrim ca))
    | _, _ => .error ()
  else
    .ok false

/-- Grade one submitted answer: look the question up by id in the test
(`test.questions.find(q => q.id === answer.questionId)`); an unmatched answer
is recorded with `correct = false` and never throws. -/
def gradeAnswer (test : Test) (answer : Answer) : Except Unit (Answer × Bool) :=
  match test.questions.find? (fun q => q.id == answer.questionId) with
  | none => .ok (answer, false)
  | some question => (gradeMatched question answer).map (fun c => (answer, c))

/-- Grade the whole submitted answer list in order; the first thrown
`TypeError` aborts the rest, as in the JS `answers.map` callback. -/
def gradeAnswers (test : Test) : List Answer → Except Unit (List (Answer × Bool))
  | [] => .ok []
  | a :: rest => do
    let g ← gradeAnswer test a
    let gs ← gradeAnswers test rest
    pure (g :: gs)

/-- `correctCount` accumulated by the grading loop. -/
def correctCount (graded : List (Answer × Bool)) : Nat :=
  (graded.filter (fun g => g.2)).length

/-- `score = (correctCount / test.questions.length) * 100`, in exact rationals. -/
def score (correct total : Nat) : ℚ :=
  ((correct : ℚ) / (total : ℚ)) * 100

/-- The stored result record built by `POST /api/results`. -/
structure ResultRec where
  id : String
  testId : String
  userId : String
  answers : List (Answer × Bool)
  score : ℚ
  correctCount : Nat
  totalQuestions : Nat
  submittedAt : Int
deriving DecidableEq

/-- Failure modes of `POST /api/results`: missing/malformed body (400),
unknown test (404), or a thrown `TypeError` while grading. -/
inductive ResultsError
  | badRequest
  | testNotFound
  | typeError
deriving DecidableEq

/-- The `POST /api/results` handler: validate, find the test, grade every
answer, and build the result record. `freshId` models `uuidv4()` and `now`
models the wall clock read by `new Date().toISOString()`. -/
def postResults (tests : List Test) (testId : String) (answers : List Answer)
    (userId freshId : String) (now : Int) : Except ResultsError ResultRec :=
  if testId == "" then .error .badRequest
  else
    match tests.find? (fun t => t.id == testId) with
    | none => .error .testNotFound
    | some test =>
      match gradeAnswers test answers with
      | .error _ => .error .typeError
      | .ok graded =>
        .ok { id := freshId
              testId := testId
              userId := userId
              answers := graded
              score := score (correctCount graded) test.questions.length
              correctCount := correctCount graded
              totalQuestions := test.questions.length
              submittedAt := now }

/-! ## Verification pipeline (`/api/auth/send-code`, `verify-code-step1`,
`complete-registration`) -/

/-- A record of `verifications.json`. -/
structure Verification where
  id : String
  userId : String
  telegram : String
  name : String
  phone : String
  code : String
  status : String
  createdAt : Int
  expiresAt : Int
deriving DecidableEq

/-- A record of `users.json` (fields written by registration completion). -/
structure User where
  id : String
  username : String
  password : String
  name : String
  phone : String
  role : String
  telegram : String
  createdAt : Int
deriving DecidableEq

/-- Handle normalization of `send-code`: strip one leading `@`. -/
def cleanHandle (telegram : String) : String :=
  match telegram.data with
  | '@' :: rest => ⟨rest⟩
  | _ => telegram

/-- The code generator `Math.floor(100000 + Math.random() * 900000).toString()`:
`rand` models the value `Math.floor(Math.random() * 900000) ∈ [0, 900000)`. -/
def genCode (rand : Nat) : String :=
  Nat.repr (100000 + rand % 900000)

/-- One step of the reissue loop of `send-code`: a `pending` request whose
handle matches the new handle case-insensitively is marked `expired`. -/
def expireStep (clean : String) (v : Verification) : Verification :=
  if jsToLower v.telegram == jsToLower clean && v.status == "pending" then
    { v with status := "expired" }
  else v

/-- The new `pending` request appended by `send-code` (30-minute expiry). -/
def freshVerification (clean name phone code userId freshId : String) (now : Int) :
    Verification :=
  { id := freshId
    userId := userId
    telegram := clean
    name := name
    phone := phone
    code := code
    status := "pending"
    createdAt := now
    expiresAt := now + 30 * 60 * 1000 }

/-- The successful response of `send-code`: a fixed message and the fresh
`userId`. The generated code is not part of the response shape. -/
structure SendCodeOk where
  message : String
  userId : String
deriving DecidableEq

/-- The fixed success message of the `send-code` endpoint. -/
def sendCodeMessage : String :=
  "Tasdiqlash kodini olish uchun Telegram botga kiring"

/-- The `POST /api/auth/send-code` handler: validate the three inputs, strip a
leading `@`, expire every `pending` request whose handle matches
case-insensitively, append the fresh `pending` request, and answer with the
fresh `userId` only. Returns the new verifications collection and the
response; `.error` models the 400 validation responses. -/
def sendCode (verifications : List Verification) (telegram name phone : String)
    (code userId freshId : String) (now : Int) :
    Except Unit (List Verification × SendCodeOk) :=
  if telegram == "" then .error ()
  else if name == "" then .error ()
  else if phone == "" then .error ()
  else
    let clean := cleanHandle telegram
    let expired := verifications.map (expireStep clean)
    .ok (expired ++ [freshVerification clean name phone code userId freshId now],
         { message := sendCodeMessage, userId := userId })

/-- The `find` predicate of `verify-code-step1`: exact handle, code and
`userId` match, status `pending`, and `new Date(v.expiresAt) > new Date()`. -/
def step1Match (telegram code userId : String) (now : Int) (v : Verification) : Bool :=
  v.telegram == telegram && v.code == code && v.status == "pending" &&
    v.userId == userId && decide (now < v.expiresAt)

/-- Set the status of the first element satisfying `p` (the JS code mutates
the object returned by `Array.prototype.find`); `none` when no element
matches. -/
def setStatusFirst (p : Verification → Bool) (status : String) :
    List Verification → Option (List Verification)
  | [] => none
  | v :: vs =>
    if p v then some ({ v with status := status } :: vs)
    else (setStatusFirst p status vs).map (fun vs2 => v :: vs2)

/-- Outcome of `POST /api/auth/verify-code-step1`. -/
inductive Step1Result
  | badRequest
  | notFoundOrExpired
  | ok (verifications : List Verification)
deriving DecidableEq

/-- The `POST /api/auth/verify-code-step1` handler: validate the three inputs,
find a request matching handle (exactly), code, `userId`, status `pending`
and unexpired; on a match transition it to `step1-verified`, otherwise
answer with the single indistinct 400 error. -/
def verifyCodeStep1 (verifications : List Verification)
    (telegram code userId : String) (now : Int) : Step1Result :=
  if telegram == "" || code == "" || userId == "" then .badRequest
  else
    match setStatusFirst (step1Match telegram code userId now) "step1-verified"
        verifications with
    | none => .notFoundOrExpired
    | some updated => .ok updated

/-- The `find` predicate of `complete-registration`: same `userId`, status
`step1-verified`, unexpired. -/
def regMatch (userId : String) (now : Int) (v : Verification) : Bool :=
  v.userId == userId && v.status == "step1-verified" && decide (now < v.expiresAt)

/-- Outcome of `POST /api/auth/complete-registration`. -/
inductive RegResult
  | badRequest
  | conflict
  | notFoundOrExpired
  | ok (users : List User) (verifications : List Verification) (newUser : User)
deriving DecidableEq

/-- The user record inserted by `complete-registration`. -/
def newUserRec (userId username hashedPassword name phone telegram : String)
    (now : Int) : User :=
  { id := userId
    username := username
    password := hashedPassword
    name := name
    phone := phone
    role := "student"
    telegram := telegram
    createdAt := now }

/-- The `POST /api/auth/complete-registration` handler: validate the six
inputs; fail with `conflict` when the username is already taken (this check
runs BEFORE the verification lookup); find a `step1-verified`, unexpired
request for `userId`; on a match insert the single new user record (with
`id = userId`) and transition the request to `completed`. `hash` models
`bcrypt.hashSync`. -/
def completeRegistration (users : List User) (verifications : List Verification)
    (userId username password name phone telegram : String)
    (hash : String → String) (now : Int) : RegResult :=
  if userId == "" || username == "" || password == "" || name == "" ||
      phone == "" || telegram == "" then .badRequest
  else if users.any (fun u => u.username == username) then .conflict
  else
    match setStatusFirst (regMatch userId now) "completed" verifications with
    | none => .notFoundOrExpired
    | some updated =>
      let newUser := newUserRec userId username (hash password) name phone telegram now
      .ok (users ++ [newUser]) updated newUser

/-! ## Helper lemmas about the scoring engine -/

/-- A successfully graded answer keeps the submitted answer as its first
component. -/
lemma gradeAnswer_ok_fst (test : Test) (a : Answer) (g : Answer × Bool)
    (h : gradeAnswer test a = .ok g) : g.1 = a := by
  cases hf : test.questions.find? (fun q => q.id == a.questionId) with
  | none =>
    simp only [gradeAnswer, hf] at h
    cases h; rfl
  | some q =>
    simp only [gradeAnswer, hf] at h
    cases hm : gradeMatched q a with
    | error e => rw [hm] at h; simp [Except.map] at h
    | ok c =>
      rw [hm] at h
      simp only [Except.map] at h
      cases h; rfl

/-- An answer matching no question of the test is graded `(a, false)` and
never throws. -/
lemma gradeAnswer_unmatched (test : Test) (a : Answer)
    (h : test.questions.find? (fun q => q.id == a.questionId) = none) :
    gradeAnswer test a = .ok (a, false) := by
  unfold gradeAnswer
  rw [h]

/-- Successful grading pairs the submitted answers with graded answers in
order. -/
lemma gradeAnswers_ok_forall₂ (test : Test) :
    ∀ (answers : List Answer) (graded : List (Answer × Bool)),
      gradeAnswers test answers = .ok graded →
      List.Forall₂ (fun a g => gradeAnswer test a = .ok g) answers graded
  | [], graded, h => by
    cases h
    exact List.Forall₂.nil
  | a :: rest, graded, h => by
    unfold gradeAnswers at h
    cases hg : gradeAnswer test a with
    | error e => rw [hg] at h; cases h
    | ok g =>
      rw [hg] at h
      cases hr : gradeAnswers test rest with
      | error e => rw [hr] at h; cases h
      | ok gs =>
        rw [hr] at h
        cases h
        exact List.Forall₂.cons hg (gradeAnswers_ok_forall₂ test rest gs hr)

/-- Unfolding of a successful `postResults` run. -/
lemma postResults_ok_elim (tests : List Test) (testId : String)
    (answers : List Answer) (userId freshId : String) (now : Int) (test : Test)
    (r : ResultRec)
    (hT : tests.find? (fun t => t.id == testId) = some test)
    (h : postResults tests testId answers userId freshId now = .ok r) :
    ∃ graded, gradeAnswers test answers = .ok graded ∧
      r = { id := freshId, testId := testId, userId := userId, answers := graded
            score := score (correctCount graded) test.questions.length
            correctCount := correctCount graded
            totalQuestions := test.questions.length
            submittedAt := now } := by
  by_cases h0 : (testId == "") = true
  · simp only [postResults, if_pos h0] at h
    simp at h
  · simp only [postResults, if_neg h0, hT] at h
    cases hg : gradeAnswers test answers with
    | error e => rw [hg] at h; simp at h
    | ok graded =>
      rw [hg] at h
      simp only [Except.ok.injEq] at h
      exact ⟨graded, rfl, h.symm⟩

/-! ## Claim theorems about the scoring engine -/

/-- **C3**: in every successful submission, `totalQuestions` is the full
question count of the test (not the number of submitted answers),
`score = 100 * correctCount / totalQuestions`, and every submitted answer is
recorded in order; an answer matching no question of the test contributes
`correct = false` and never aborts the submission. -/
theorem grade_totals_and_unmatched (tests : List Test) (testId : String)
    (answers : List Answer) (userId freshId : String) (now : Int) (test : Test)
    (r : ResultRec)
    (hT : tests.find? (fun t => t.id == testId) = some test)
    (h : postResults tests testId answers userId freshId now = .ok r) :
    r.totalQuestions = test.questions.length ∧
    r.score = 100 * (r.correctCount : ℚ) / (r.totalQuestions : ℚ) ∧
    r.answers.length = answers.length ∧
    List.Forall₂ (fun (a : Answer) (g : Answer × Bool) =>
        g.1 = a ∧
        (test.questions.find? (fun q => q.id == a.questionId) = none →
          g = (a, false))) answers r.answers ∧
    (∀ a : Answer, test.questions.find? (fun q => q.id == a.questionId) = none →
      gradeAnswer test a = .ok (a, false)) := by
  obtain ⟨graded, hg, hr⟩ :=
    postResults_ok_elim tests testId answers userId freshId now test r hT h
  have hf2 := gradeAnswers_ok_forall₂ test answers graded hg
  subst hr
  refine ⟨rfl, ?_, ?_, ?_, ?_⟩
  · show score (correctCount graded) test.questions.length
      = 100 * ((correctCount graded : Nat) : ℚ) / ((test.questions.length : Nat) : ℚ)
    unfold score
    ring
  · exact hf2.length_eq.symm
  · refine hf2.imp ?_
    intro a g hag
    refine ⟨gradeAnswer_ok_fst test a g hag, ?_⟩
    intro hnone
    have h2 := gradeAnswer_unmatched test a hnone
    rw [h2] at hag
    cases hag
    rfl
  · intro a hnone
    exact gradeAnswer_unmatched test a hnone

/-- A multiple-choice question with two options, the first flagged correct. -/
def qMC : Question :=
  { id := "q1", type := "multiple-choice"
    options := [{ id := "o1", text := "yes", correct := true },
                { id := "o2", text := "no", correct := false }]
    correctAnswer := none }

/-- A concrete stored test with two questions. -/
def testA : Test :=
  { id := "T1"
    questions := [qMC,
      { id := "q2", type := "text", options := [], correctAnswer := some "Paris" }] }

/-- A concrete submission: one correct answer and one answer whose
`questionId` matches no question of `testA`. -/
def ansA : List Answer :=
  [{ questionId := "q1", optionId := some "o1", selectedOptions := none, text := none },
   { questionId := "zzz", optionId := none, selectedOptions := none, text := none }]

/-- The graded answers produced for `ansA`. -/
def gradedA : List (Answer × Bool) :=
  [({ questionId := "q1", optionId := some "o1", selectedOptions := none, text := none }, true),
   ({ questionId := "zzz", optionId := none, selectedOptions := none, text := none }, false)]

/-- The result record produced for `ansA` against `testA`. -/
def rA : ResultRec :=
  { id := "R", testId := "T1", userId := "U", answers := gradedA
    score := score (correctCount gradedA) 2
    correctCount := correctCount gradedA
    totalQuestions := 2
    submittedAt := 7 }

/-- Witness for the C3 theorem at a concrete submission. -/
theorem grade_totals_and_unmatched_witness :
    rA.totalQuestions = testA.questions.length ∧
    rA.score = 100 * (rA.correctCount : ℚ) / (rA.totalQuestions : ℚ) ∧
    rA.answers.length = ansA.length ∧
    List.Forall₂ (fun (a : Answer) (g : Answer × Bool) =>
        g.1 = a ∧
        (testA.questions.find? (fun q => q.id == a.questionId) = none →
          g = (a, false))) ansA rA.answers ∧
    (∀ a : Answer, testA.questions.find? (fun q => q.id == a.questionId) = none →
      gradeAnswer testA a = .ok (a, false)) :=
  grade_totals_and_unmatched [testA] "T1" ansA "U" "R" 7 testA rA (by decide) rfl

/-- **C9**: grading is deterministic in `(test, answers)`: two runs of
`postResults` on the same tests collection, test id and submitted answers
produce the same per-answer correct flags, `correctCount`, `totalQuestions`
and `score`, whatever the wall clock and the generated result id are. -/
theorem postResults_deterministic (tests : List Test) (testId : String)
    (answers : List Answer) (uid1 uid2 fid1 fid2 : String) (now1 now2 : Int)
    (r1 r2 : ResultRec)
    (h1 : postResults tests testId answers uid1 fid1 now1 = .ok r1)
    (h2 : postResults tests testId answers uid2 fid2 now2 = .ok r2) :
    r1.answers = r2.answers ∧
    r1.answers.map Prod.snd = r2.answers.map Prod.snd ∧
    r1.correctCount = r2.correctCount ∧
    r1.totalQuestions = r2.totalQuestions ∧
    r1.score = r2.score := by
  cases hf : tests.find? (fun t => t.id == testId) with
  | none =>
    by_cases h0 : (testId == "") = true
    · simp only [postResults, if_pos h0] at h1
      simp at h1
    · simp only [postResults, if_neg h0, hf] at h1
      simp at h1
  | some test =>
    obtain ⟨g1, hg1, hr1⟩ :=
      postResults_ok_elim tests testId answers uid1 fid1 now1 test r1 hf h1
    obtain ⟨g2, hg2, hr2⟩ :=
      postResults_ok_elim tests testId answers uid2 fid2 now2 test r2 hf h2
    rw [hg1] at hg2
    cases hg2
    subst hr1
    subst hr2
    exact ⟨rfl, rfl, rfl, rfl, rfl⟩

/-- The same result as `rA` from a run with a different result id, a
different user and a different clock. -/
def rB : ResultRec :=
  { id := "R2", testId := "T1", userId := "U2", answers := gradedA
    score := score (correctCount gradedA) 2
    correctCount := correctCount gradedA
    totalQuestions := 2
    submittedAt := 8 }

/-- Witness for the C9 theorem: two concrete runs. -/
theorem postResults_deterministic_witness :
    rA.answers = rB.answers ∧
    rA.answers.map Prod.snd = rB.answers.map Prod.snd ∧
    rA.correctCount = rB.correctCount ∧
    rA.totalQuestions = rB.totalQuestions ∧
    rA.score = rB.score :=
  postResults_deterministic [testA] "T1" ansA "U" "U2" "R" "R2" 7 8 rA rB rfl rfl

/-- **C7**: a text-type answer with both strings present is graded by trimmed,
case-folded equality of the submitted text and the stored `correctAnswer`. -/
theorem gradeMatched_text (q : Question) (a : Answer) (t ca : String)
    (hq : q.type = "text") (ht : a.text = some t) (hca : q.correctAnswer = some ca) :
    gradeMatched q a = .ok (jsToLower (jsTrim t) == jsToLower (jsTrim ca)) ∧
    (gradeMatched q a = .ok true ↔ jsToLower (jsTrim t) = jsToLower (jsTrim ca)) := by
  have hred : gradeMatched q a = .ok (jsToLower (jsTrim t) == jsToLower (jsTrim ca)) := by
    unfold gradeMatched
    rw [hq, ht, hca]
    simp
  refine ⟨hred, ?_⟩
  rw [hred]
  simp

/-- The text question of the spec example (`correctAnswer = "Paris"`). -/
def qText : Question :=
  { id := "qt", type := "text", options := [], correctAnswer := some "Paris" }

/-- The submission `" paris "` for `qText`. -/
def aText : Answer :=
  { questionId := "qt", optionId := none, selectedOptions := none, text := some " paris " }

/-- Witness for the C7 theorem: `" paris "` against `"Paris"` grades correct. -/
theorem gradeMatched_text_witness :
    (gradeMatched qText aText = .ok (jsToLower (jsTrim " paris ") == jsToLower (jsTrim "Paris")) ∧
     (gradeMatched qText aText = .ok true ↔
        jsToLower (jsTrim " paris ") = jsToLower (jsTrim "Paris"))) ∧
    gradeMatched qText aText = .ok true :=
  have h := gradeMatched_text qText aText " paris " "Paris" rfl rfl rfl
  ⟨h, h.2.mpr (by decide)⟩

/-- The boolean `allCorrectSelected && noIncorrectSelected` computed by the
multiple-answer branch, characterised as a proposition. -/
lemma multiAnswer_bool_iff (q : Question) (sel : List String) :
    ((((q.options.filter (fun o => o.correct)).map (fun o => o.id)).all
        (fun i => sel.contains i)) &&
     !(sel.any (fun i =>
        (((q.options.filter (fun o => !o.correct)).map (fun o => o.id)).contains i)))) = true ↔
    ((∀ o ∈ q.options, o.correct = true → o.id ∈ sel) ∧
     (∀ s ∈ sel, ∀ o ∈ q.options, o.correct = false → s ≠ o.id)) := by
  simp only [Bool.and_eq_true, List.all_eq_true, List.mem_map, List.mem_filter,
    Bool.not_eq_true', List.any_eq_false, List.contains, List.elem_eq_mem,
    decide_eq_true_eq, forall_exists_index, and_imp]
  constructor
  · rintro ⟨h1, h2⟩
    constructor
    · intro o ho hc
      exact h1 o.id o ho hc rfl
    · intro s hs o ho hc he
      exact h2 s hs ⟨o, ⟨ho, hc⟩, he.symm⟩
  · rintro ⟨h1, h2⟩
    constructor
    · rintro x o ho hc rfl
      exact h1 o ho hc
    · intro s hs hex
      obtain ⟨o, ⟨ho, hc⟩, he⟩ := hex
      exact h2 s hs o ho hc he.symm

/-- **C4**: a multiple-answer submission with a selection list is graded
correct iff every option flagged correct is selected and no option flagged
incorrect is selected; when the selected ids are ids of the question's
options and option ids are distinct, this says the selected set is exactly
the set of correct option ids; an empty selection is correct iff the
question has no correct option. -/
theorem gradeMatched_multiple_answer_exact (q : Question) (a : Answer) (sel : List String)
    (hq : q.type = "multiple-answer") (hsel : a.selectedOptions = some sel) :
    (gradeMatched q a = .ok true ↔
      ((∀ o ∈ q.options, o.correct = true → o.id ∈ sel) ∧
       (∀ s ∈ sel, ∀ o ∈ q.options, o.correct = false → s ≠ o.id))) ∧
    ((∀ s ∈ sel, ∃ o ∈ q.options, s = o.id) →
      (q.options.map QOption.id).Nodup →
      (gradeMatched q a = .ok true ↔
        ∀ x : String, x ∈ sel ↔ ∃ o ∈ q.options, o.correct = true ∧ x = o.id)) ∧
    (sel = [] →
      (gradeMatched q a = .ok true ↔ ∀ o ∈ q.options, o.correct = false)) := by
  have hred : gradeMatched q a = .ok
      ((((q.options.filter (fun o => o.correct)).map (fun o => o.id)).all
          (fun i => sel.contains i)) &&
       !(sel.any (fun i =>
          (((q.options.filter (fun o => !o.correct)).map (fun o => o.id)).contains i)))) := by
    unfold gradeMatched
    rw [hq, hsel]
    simp
  have hiff : gradeMatched q a = .ok true ↔
      ((∀ o ∈ q.options, o.correct = true → o.id ∈ sel) ∧
       (∀ s ∈ sel, ∀ o ∈ q.options, o.correct = false → s ≠ o.id)) := by
    rw [hred]
    simp only [Except.ok.injEq]
    exact multiAnswer_bool_iff q sel
  refine ⟨hiff, ?_, ?_⟩
  · intro hsub hnd
    rw [hiff]
    constructor
    · rintro ⟨h1, h2⟩ x
      constructor
      · intro hx
        obtain ⟨o, ho, rfl⟩ := hsub x hx
        cases hoc : o.correct with
        | true => exact ⟨o, ho, hoc, rfl⟩
        | false => exact absurd rfl (h2 o.id hx o ho hoc)
      · rintro ⟨o, ho, hc, rfl⟩
        exact h1 o ho hc
    · intro h
      constructor
      · intro o ho hc
        exact (h o.id).mpr ⟨o, ho, hc, rfl⟩
      · intro s hs o ho hc he
        obtain ⟨o2, ho2, hc2, he2⟩ := (h s).mp hs
        have hfe : o.id = o2.id := by rw [← he, ← he2]
        have hoo : o = o2 := List.inj_on_of_nodup_map hnd ho ho2 hfe
        rw [hoo, hc2] at hc
        cases hc
  · intro hsel0
    subst hsel0
    rw [hiff]
    simp [Bool.not_eq_true]

/-- A multiple-answer question with correct options `mA`, `mB` and incorrect
option `mC`. -/
def qMA : Question :=
  { id := "m1", type := "multiple-answer"
    options := [{ id := "mA", text := "a", correct := true },
                { id := "mB", text := "b", correct := true },
                { id := "mC", text := "c", correct := false }]
    correctAnswer := none }

/-- The submission selecting exactly `{mA, mB}` for `qMA`. -/
def aMA : Answer :=
  { questionId := "m1", optionId := none, selectedOptions := some ["mA", "mB"], text := none }

/-- Witness for the C4 theorem at the spec's example shape. -/
theorem gradeMatched_multiple_answer_exact_witness :
    ((gradeMatched qMA aMA = .ok true ↔
       ((∀ o ∈ qMA.options, o.correct = true → o.id ∈ ["mA", "mB"]) ∧
        (∀ s ∈ ["mA", "mB"], ∀ o ∈ qMA.options, o.correct = false → s ≠ o.id))) ∧
     ((∀ s ∈ ["mA", "mB"], ∃ o ∈ qMA.options, s = o.id) →
       (qMA.options.map QOption.id).Nodup →
       (gradeMatched qMA aMA = .ok true ↔
         ∀ x : String, x ∈ ["mA", "mB"] ↔ ∃ o ∈ qMA.options, o.correct = true ∧ x = o.id)) ∧
     (["mA", "mB"] = ([] : List String) →
       (gradeMatched qMA aMA = .ok true ↔ ∀ o ∈ qMA.options, o.correct = false))) ∧
    gradeMatched qMA aMA = .ok true :=
  have h := gradeMatched_multiple_answer_exact qMA aMA ["mA", "mB"] rfl rfl
  ⟨h, h.1.mpr (by decide)⟩

/-- **C10**: grading aborts (throws) exactly at the two unguarded
dereferences: a multiple-choice question none of whose options is flagged
correct, and a text comparison with a missing submitted `text` or stored
`correctAnswer`; under the matching preconditions the error branch is
unreachable. -/
theorem gradeMatched_abort_conditions :
    (∀ (q : Question) (a : Answer), q.type = "multiple-choice" →
      q.options.find? (fun o => o.correct) = none → gradeMatched q a = .error ()) ∧
    (∀ (q : Question) (a : Answer), q.type = "text" →
      (a.text = none ∨ q.correctAnswer = none) → gradeMatched q a = .error ()) ∧
    (∀ (q : Question) (a : Answer),
      (q.type = "multiple-choice" → ∃ o ∈ q.options, o.correct = true) →
      (q.type = "text" → a.text ≠ none ∧ q.correctAnswer ≠ none) →
      ∃ c, gradeMatched q a = .ok c) := by
  refine ⟨?_, ?_, ?_⟩
  · intro q a hq hfind
    unfold gradeMatched
    rw [hq, hfind]
    simp
  · intro q a hq hmiss
    unfold gradeMatched
    rw [hq]
    rcases hmiss with hm | hm
    · rw [hm]
      cases q.correctAnswer <;> simp
    · rw [hm]
      cases a.text <;> simp
  · intro q a hmc htx
    unfold gradeMatched
    by_cases h1 : (q.type == "multiple-choice") = true
    · obtain ⟨o, ho, hoc⟩ := hmc (by simpa using h1)
      have : (q.options.find? (fun o => o.correct)).isSome := by
        rw [List.find?_isSome]
        exact ⟨o, ho, hoc⟩
      rw [if_pos h1]
      cases hf : q.options.find? (fun o => o.correct) with
      | none => rw [hf] at this; cases this
      | some co => exact ⟨_, rfl⟩
    · rw [if_neg h1]
      by_cases h2 : (q.type == "multiple-answer") = true
      · rw [if_pos h2]
        cases a.selectedOptions <;> exact ⟨_, rfl⟩
      · rw [if_neg h2]
        by_cases h3 : (q.type == "text") = true
        · obtain ⟨hta, hca⟩ := htx (by simpa using h3)
          rw [if_pos h3]
          cases hat : a.text with
          | none => exact absurd hat hta
          | some t =>
            cases hqa : q.correctAnswer with
            | none => exact absurd hqa hca
            | some ca => exact ⟨_, rfl⟩
        · rw [if_neg h3]
          exact ⟨_, rfl⟩

/-- A multiple-choice question with no option flagged correct. -/
def qNoCorrect : Question :=
  { id := "n1", type := "multiple-choice"
    options := [{ id := "nA", text := "a", correct := false }]
    correctAnswer := none }

/-- An answer carrying no payload fields at all. -/
def aEmpty : Answer :=
  { questionId := "qt", optionId := none, selectedOptions := none, text := none }

/-- An answer selecting option `o1` of `qMC`. -/
def aMC : Answer :=
  { questionId := "q1", optionId := some "o1", selectedOptions := none, text := none }

/-- Witness for the C10 theorem: a throwing input for each error case and a
non-throwing input under the preconditions. -/
theorem gradeMatched_abort_conditions_witness :
    gradeMatched qNoCorrect aMA = .error () ∧
    gradeMatched qText aEmpty = .error () ∧
    ∃ c, gradeMatched qMC aMC = .ok c :=
  ⟨gradeMatched_abort_conditions.1 qNoCorrect aMA rfl rfl,
   gradeMatched_abort_conditions.2.1 qText aEmpty rfl (Or.inl rfl),
   gradeMatched_abort_conditions.2.2 qMC aMC
     (fun _ => ⟨{ id := "o1", text := "yes", correct := true }, by decide, rfl⟩)
     (fun h => absurd h (by decide))⟩

/-! ## Helper lemmas about the verification pipeline -/

/-- `setStatusFirst` fails exactly when no record matches. -/
lemma setStatusFirst_none_iff (p : Verification → Bool) (st : String) :
    ∀ l : List Verification, setStatusFirst p st l = none ↔ ∀ v ∈ l, p v = false
  | [] => by simp [setStatusFirst]
  | v :: vs => by
    by_cases hp : p v = true
    · simp [setStatusFirst, hp]
    · have hp2 : p v = false := by simpa using hp
      simp [setStatusFirst, hp2, Option.map_eq_none', setStatusFirst_none_iff p st vs]

/-- A successful `setStatusFirst` splits the list at the first matching
record and updates only that record's status. -/
lemma setStatusFirst_some_elim (p : Verification → Bool) (st : String) :
    ∀ (l l2 : List Verification), setStatusFirst p st l = some l2 →
      ∃ pre v post, l = pre ++ v :: post ∧ p v = true ∧
        (∀ u ∈ pre, p u = false) ∧
        l2 = pre ++ { v with status := st } :: post
  | [], l2, h => by simp [setStatusFirst] at h
  | w :: ws, l2, h => by
    by_cases hp : p w = true
    · rw [setStatusFirst, if_pos hp] at h
      cases h
      exact ⟨[], w, ws, rfl, hp, by simp, rfl⟩
    · have hp2 : p w = false := by simpa using hp
      rw [setStatusFirst, if_neg hp] at h
      rw [Option.map_eq_some'] at h
      obtain ⟨ws2, hws2, hl2⟩ := h
      obtain ⟨pre, v, post, hdec, hv, hpre, hl⟩ := setStatusFirst_some_elim p st ws ws2 hws2
      refine ⟨w :: pre, v, post, ?_, hv, ?_, ?_⟩
      · rw [hdec]
        simp
      · intro u hu
        rcases List.mem_cons.mp hu with rfl | hu2
        · exact hp2
        · exact hpre u hu2
      · rw [← hl2, hl]
        simp

/-- The `find` predicate of `verify-code-step1`, as a proposition. -/
lemma step1Match_eq_true_iff (t c u : String) (now : Int) (v : Verification) :
    step1Match t c u now v = true ↔
      (v.telegram = t ∧ v.code = c ∧ v.status = "pending" ∧ v.userId = u ∧
        now < v.expiresAt) := by
  simp [step1Match, Bool.and_eq_true, and_assoc]

/-- The `find` predicate of `complete-registration`, as a proposition. -/
lemma regMatch_eq_true_iff (u : String) (now : Int) (v : Verification) :
    regMatch u now v = true ↔
      (v.userId = u ∧ v.status = "step1-verified" ∧ now < v.expiresAt) := by
  simp [regMatch, Bool.and_eq_true, and_assoc]

/-- `expireStep` leaves a record alone unless it is a pending record for the
same case-folded handle. -/
lemma expireStep_eq_self (clean : String) (v : Verification)
    (h : ¬(jsToLower v.telegram = jsToLower clean ∧ v.status = "pending")) :
    expireStep clean v = v := by
  unfold expireStep
  rw [if_neg]
  simpa using h

/-- `expireStep` marks a pending record for the same case-folded handle
`expired`. -/
lemma expireStep_expires (clean : String) (v : Verification)
    (h1 : jsToLower v.telegram = jsToLower clean) (h2 : v.status = "pending") :
    expireStep clean v = { v with status := "expired" } := by
  unfold expireStep
  rw [if_pos]
  simp [h1, h2]

/-- After `expireStep`, a record is never a pending record for the handle. -/
lemma expireStep_post (clean : String) (v : Verification) :
    (jsToLower (expireStep clean v).telegram == jsToLower clean &&
      (expireStep clean v).status == "pending") = false := by
  unfold expireStep
  by_cases hcond :
      (jsToLower v.telegram == jsToLower clean && v.status == "pending") = true
  · rw [if_pos hcond]
    simp
  · rw [if_neg hcond]
    simpa using hcond

/-- Unfolding of a successful `sendCode` run. -/
lemma sendCode_ok_elim (vs : List Verification) (t n p c uid fid : String)
    (now : Int) (vs2 : List Verification) (resp : SendCodeOk)
    (h : sendCode vs t n p c uid fid now = .ok (vs2, resp)) :
    (t == "") = false ∧ (n == "") = false ∧ (p == "") = false ∧
    vs2 = vs.map (expireStep (cleanHandle t)) ++
      [freshVerification (cleanHandle t) n p c uid fid now] ∧
    resp = { message := sendCodeMessage, userId := uid } := by
  by_cases e1 : (t == "") = true
  · simp [sendCode, e1] at h
  have e1f : (t == "") = false := by simpa using e1
  by_cases e2 : (n == "") = true
  · simp [sendCode, e1f, e2] at h
  have e2f : (n == "") = false := by simpa using e2
  by_cases e3 : (p == "") = true
  · simp [sendCode, e1f, e2f, e3] at h
  have e3f : (p == "") = false := by simpa using e3
  simp only [sendCode, e1f, e2f, e3f, Bool.false_eq_true, if_false,
    Except.ok.injEq, Prod.mk.injEq] at h
  exact ⟨e1f, e2f, e3f, h.1.symm, h.2.symm⟩

/-! ## Claim theorems about the verification pipeline -/

/-- **C1 (amended)**: issuing a new code expires exactly the prior `pending`
requests for the same case-folded handle; non-pending requests — including
`step1-verified` ones — and requests for other handles are carried over
unchanged, and afterwards exactly one `pending` request for the handle
exists (the fresh one). -/
theorem sendCode_expires_only_pending (vs : List Verification)
    (t n p c uid fid : String) (now : Int) (vs2 : List Verification)
    (resp : SendCodeOk)
    (h : sendCode vs t n p c uid fid now = .ok (vs2, resp)) :
    (∀ v ∈ vs, ¬(jsToLower v.telegram = jsToLower (cleanHandle t) ∧
        v.status = "pending") → v ∈ vs2) ∧
    (∀ v ∈ vs, jsToLower v.telegram = jsToLower (cleanHandle t) →
        v.status = "pending" → { v with status := "expired" } ∈ vs2) ∧
    (∀ v ∈ vs, v.status = "step1-verified" → v ∈ vs2) ∧
    vs2.countP (fun v => jsToLower v.telegram == jsToLower (cleanHandle t) &&
      v.status == "pending") = 1 ∧
    vs2.length = vs.length + 1 := by
  obtain ⟨e1, e2, e3, hvs2, hresp⟩ :=
    sendCode_ok_elim vs t n p c uid fid now vs2 resp h
  subst hvs2
  refine ⟨?_, ?_, ?_, ?_, ?_⟩
  · intro v hv hno
    refine List.mem_append_left _ ?_
    rw [← expireStep_eq_self (cleanHandle t) v hno]
    exact List.mem_map_of_mem _ hv
  · intro v hv h1 h2
    refine List.mem_append_left _ ?_
    rw [← expireStep_expires (cleanHandle t) v h1 h2]
    exact List.mem_map_of_mem _ hv
  · intro v hv hs
    refine List.mem_append_left _ ?_
    rw [← expireStep_eq_self (cleanHandle t) v (by rw [hs]; simp)]
    exact List.mem_map_of_mem _ hv
  · rw [List.countP_append]
    have hmap : (vs.map (expireStep (cleanHandle t))).countP
        (fun v => jsToLower v.telegram == jsToLower (cleanHandle t) &&
          v.status == "pending") = 0 := by
      rw [List.countP_eq_zero]
      intro x hx
      obtain ⟨v, _, rfl⟩ := List.mem_map.mp hx
      simp [expireStep_post (cleanHandle t) v]
    rw [hmap]
    simp [List.countP_cons, freshVerification]
  · simp

/-- An unexpired `step1-verified` request for handle `alice`. -/
def vStep1 : Verification :=
  { id := "V0", userId := "U0", telegram := "alice", name := "A", phone := "1",
    code := "111111", status := "step1-verified", createdAt := 0,
    expiresAt := 1000000 }

/-- Counterexample to C1 as stated: issuing a new code for `alice` while an
unexpired `step1-verified` request for `alice` exists leaves that request
active, so afterwards two unexpired `pending`-or-`step1-verified` requests
for the same handle coexist (the claim demands at most one, with prior
active requests marked expired). -/
theorem sendCode_active_invariant_counterexample :
    sendCode [vStep1] "alice" "A" "1" "222222" "U1" "V1" 0
      = .ok ([vStep1, freshVerification "alice" "A" "1" "222222" "U1" "V1" 0],
             { message := sendCodeMessage, userId := "U1" }) ∧
    ([vStep1, freshVerification "alice" "A" "1" "222222" "U1" "V1" 0].countP
      (fun v => jsToLower v.telegram == jsToLower "alice" &&
        (v.status == "pending" || v.status == "step1-verified") &&
        decide ((0 : Int) < v.expiresAt))) = 2 ∧
    vStep1.status = "step1-verified" := by decide

/-- Witness for the amended C1 theorem at the same concrete issuance. -/
theorem sendCode_expires_only_pending_witness :
    (∀ v ∈ [vStep1], ¬(jsToLower v.telegram = jsToLower (cleanHandle "alice") ∧
        v.status = "pending") →
        v ∈ [vStep1, freshVerification "alice" "A" "1" "222222" "U1" "V1" 0]) ∧
    (∀ v ∈ [vStep1], jsToLower v.telegram = jsToLower (cleanHandle "alice") →
        v.status = "pending" → { v with status := "expired" } ∈
          [vStep1, freshVerification "alice" "A" "1" "222222" "U1" "V1" 0]) ∧
    (∀ v ∈ [vStep1], v.status = "step1-verified" →
        v ∈ [vStep1, freshVerification "alice" "A" "1" "222222" "U1" "V1" 0]) ∧
    ([vStep1, freshVerification "alice" "A" "1" "222222" "U1" "V1" 0].countP
      (fun v => jsToLower v.telegram == jsToLower (cleanHandle "alice") &&
        v.status == "pending") = 1) ∧
    ([vStep1, freshVerification "alice" "A" "1" "222222" "U1" "V1" 0].length
      = [vStep1].length + 1) :=
  sendCode_expires_only_pending [vStep1] "alice" "A" "1" "222222" "U1" "V1" 0
    [vStep1, freshVerification "alice" "A" "1" "222222" "U1" "V1" 0]
    { message := sendCodeMessage, userId := "U1" } (by decide)

/-- **C2 (amended)**: given nonempty inputs, `verify-code-step1` succeeds iff
some request matches handle (exactly), code, `userId`, status `pending` and
`now < expiresAt` (strictly); otherwise — whichever single field mismatches —
it returns the one indistinct `notFoundOrExpired` error; on success the first
matching request, and only it, is transitioned to `step1-verified`. -/
theorem verifyCodeStep1_spec (vs : List Verification) (t c u : String)
    (now : Int) (ht : t ≠ "") (hc : c ≠ "") (hu : u ≠ "") :
    ((∃ v ∈ vs, v.telegram = t ∧ v.code = c ∧ v.status = "pending" ∧
        v.userId = u ∧ now < v.expiresAt) ↔
      ∃ vs2, verifyCodeStep1 vs t c u now = .ok vs2) ∧
    ((∀ v ∈ vs, ¬(v.telegram = t ∧ v.code = c ∧ v.status = "pending" ∧
        v.userId = u ∧ now < v.expiresAt)) →
      verifyCodeStep1 vs t c u now = .notFoundOrExpired) ∧
    (∀ vs2, verifyCodeStep1 vs t c u now = .ok vs2 →
      ∃ pre v post, vs = pre ++ v :: post ∧
        v.telegram = t ∧ v.code = c ∧ v.status = "pending" ∧ v.userId = u ∧
        now < v.expiresAt ∧
        (∀ w ∈ pre, step1Match t c u now w = false) ∧
        vs2 = pre ++ { v with status := "step1-verified" } :: post) := by
  have hguard : (t == "" || c == "" || u == "") = false := by
    simp [ht, hc, hu]
  have hrun : verifyCodeStep1 vs t c u now =
      match setStatusFirst (step1Match t c u now) "step1-verified" vs with
      | none => Step1Result.notFoundOrExpired
      | some updated => Step1Result.ok updated := by
    simp only [verifyCodeStep1, hguard, Bool.false_eq_true, if_false]
  cases hset : setStatusFirst (step1Match t c u now) "step1-verified" vs with
  | none =>
    have hall := (setStatusFirst_none_iff (step1Match t c u now)
      "step1-verified" vs).mp hset
    rw [hset] at hrun
    refine ⟨?_, fun _ => hrun, ?_⟩
    · constructor
      · rintro ⟨v, hv, hm⟩
        have := hall v hv
        rw [← step1Match_eq_true_iff t c u now v] at hm
        rw [this] at hm
        cases hm
      · rintro ⟨vs2, hvs2⟩
        rw [hrun] at hvs2
        cases hvs2
    · intro vs2 hvs2
      rw [hrun] at hvs2
      cases hvs2
  | some updated =>
    rw [hset] at hrun
    obtain ⟨pre, v, post, hdec, hv, hpre, hupd⟩ :=
      setStatusFirst_some_elim (step1Match t c u now) "step1-verified"
        vs updated hset
    obtain ⟨hm1, hm2, hm3, hm4, hm5⟩ := (step1Match_eq_true_iff t c u now v).mp hv
    refine ⟨?_, ?_, ?_⟩
    · constructor
      · intro _
        exact ⟨updated, hrun⟩
      · intro _
        refine ⟨v, ?_, hm1, hm2, hm3, hm4, hm5⟩
        rw [hdec]
        exact List.mem_append_right _ (List.mem_cons_self v post)
    · intro hnone
      exfalso
      refine hnone v ?_ ⟨hm1, hm2, hm3, hm4, hm5⟩
      rw [hdec]
      exact List.mem_append_right _ (List.mem_cons_self v post)
    · intro vs2 hvs2
      rw [hrun] at hvs2
      cases hvs2
      exact ⟨pre, v, post, hdec, hm1, hm2, hm3, hm4, hm5, hpre, hupd⟩

/-- An unexpired `pending` request for handle `alice`, code `123456`,
pre-allocated user id `U1`, expiring at time `5000`. -/
def vPend : Verification :=
  { id := "V2", userId := "U1", telegram := "alice", name := "A", phone := "1",
    code := "123456", status := "pending", createdAt := 0, expiresAt := 5000 }

/-- Counterexample to C2 as stated: at `now = expiresAt` the claim's
condition (`status = pending`, matching code, userId, handle, `now ≤
expiresAt`) holds, yet the operation fails — the code requires
`expiresAt > now` strictly. -/
theorem verifyCodeStep1_boundary_counterexample :
    (vPend.telegram = "alice" ∧ vPend.code = "123456" ∧
     vPend.status = "pending" ∧ vPend.userId = "U1" ∧
     (5000 : Int) ≤ vPend.expiresAt) ∧
    verifyCodeStep1 [vPend] "alice" "123456" "U1" 5000
      = .notFoundOrExpired := by decide

/-- Witness for the amended C2 theorem: one tick before expiry the same
request verifies successfully. -/
theorem verifyCodeStep1_spec_witness :
    ∃ vs2, verifyCodeStep1 [vPend] "alice" "123456" "U1" 4999 = .ok vs2 :=
  (verifyCodeStep1_spec [vPend] "alice" "123456" "U1" 4999
      (by decide) (by decide) (by decide)).1.mp (by decide)

/-- Unfolding of a successful `completeRegistration` run. -/
lemma completeRegistration_ok_elim (users : List User) (vs : List Verification)
    (uid un pw nm ph tg : String) (hash : String → String) (now : Int)
    (us2 : List User) (vs2 : List Verification) (nu : User)
    (h : completeRegistration users vs uid un pw nm ph tg hash now
      = .ok us2 vs2 nu) :
    uid ≠ "" ∧ un ≠ "" ∧ pw ≠ "" ∧ nm ≠ "" ∧ ph ≠ "" ∧ tg ≠ "" ∧
    users.any (fun u2 => u2.username == un) = false ∧
    setStatusFirst (regMatch uid now) "completed" vs = some vs2 ∧
    nu = newUserRec uid un (hash pw) nm ph tg now ∧
    us2 = users ++ [nu] := by
  by_cases e0 : (uid == "" || un == "" || pw == "" || nm == "" || ph == "" ||
      tg == "") = true
  · simp [completeRegistration, e0] at h
  have e0f : (uid == "" || un == "" || pw == "" || nm == "" || ph == "" ||
      tg == "") = false := by simpa using e0
  by_cases e1 : users.any (fun u2 => u2.username == un) = true
  · simp [completeRegistration, e0f, e1] at h
  have e1f : users.any (fun u2 => u2.username == un) = false := by simpa using e1
  cases hset : setStatusFirst (regMatch uid now) "completed" vs with
  | none => simp [completeRegistration, e0f, e1f, hset] at h
  | some updated =>
    simp only [completeRegistration, e0f, e1f, hset, Bool.false_eq_true,
      if_false, RegResult.ok.injEq] at h
    obtain ⟨h1, h2, h3⟩ := h
    obtain ⟨g1, g2, g3, g4, g5, g6⟩ : uid ≠ "" ∧ un ≠ "" ∧ pw ≠ "" ∧
        nm ≠ "" ∧ ph ≠ "" ∧ tg ≠ "" := by
      simpa [Bool.or_eq_false_iff, and_assoc] using e0f
    subst h1
    subst h2
    subst h3
    exact ⟨g1, g2, g3, g4, g5, g6, e1f, rfl, rfl, rfl⟩

/-- **C6**: with nonempty inputs, registration completion fails with
`conflict` when the username is taken; fails with `notFoundOrExpired` when
the username is free but no unexpired `step1-verified` request for `userId`
exists; and on success performs exactly one insert into the users
collection, the inserted user's id being the `userId` carried on the matched
verification request, whose status is transitioned to `completed`. -/
theorem completeRegistration_spec (users : List User) (vs : List Verification)
    (uid un pw nm ph tg : String) (hash : String → String) (now : Int)
    (h0 : uid ≠ "") (h1 : un ≠ "") (h2 : pw ≠ "") (h3 : nm ≠ "")
    (h4 : ph ≠ "") (h5 : tg ≠ "") :
    (users.any (fun u2 => u2.username == un) = true →
      completeRegistration users vs uid un pw nm ph tg hash now = .conflict) ∧
    (users.any (fun u2 => u2.username == un) = false →
      (∀ v ∈ vs, ¬(v.userId = uid ∧ v.status = "step1-verified" ∧
        now < v.expiresAt)) →
      completeRegistration users vs uid un pw nm ph tg hash now
        = .notFoundOrExpired) ∧
    (∀ us2 vs2 nu,
      completeRegistration users vs uid un pw nm ph tg hash now
        = .ok us2 vs2 nu →
      us2 = users ++ [nu] ∧ nu.id = uid ∧ nu.username = un ∧
      nu.role = "student" ∧
      ∃ pre v post, vs = pre ++ v :: post ∧
        v.userId = uid ∧ v.status = "step1-verified" ∧ now < v.expiresAt ∧
        nu.id = v.userId ∧
        vs2 = pre ++ { v with status := "completed" } :: post) := by
  have e0f : (uid == "" || un == "" || pw == "" || nm == "" || ph == "" ||
      tg == "") = false := by
    simp [h0, h1, h2, h3, h4, h5]
  refine ⟨?_, ?_, ?_⟩
  · intro hany
    simp [completeRegistration, e0f, hany]
  · intro hany hnone
    have hset : setStatusFirst (regMatch uid now) "completed" vs = none := by
      rw [setStatusFirst_none_iff]
      intro v hv
      rcases hb : regMatch uid now v with _ | _
      · rfl
      · exact absurd ((regMatch_eq_true_iff uid now v).mp hb) (hnone v hv)
    simp [completeRegistration, e0f, hany, hset]
  · intro us2 vs2 nu h
    obtain ⟨_, _, _, _, _, _, hany, hset, hnu, hus⟩ :=
      completeRegistration_ok_elim users vs uid un pw nm ph tg hash now
        us2 vs2 nu h
    obtain ⟨pre, v, post, hdec, hv, hpre, hupd⟩ :=
      setStatusFirst_some_elim (regMatch uid now) "completed" vs vs2 hset
    obtain ⟨hm1, hm2, hm3⟩ := (regMatch_eq_true_iff uid now v).mp hv
    refine ⟨hus, ?_, ?_, ?_, pre, v, post, hdec, hm1, hm2, hm3, ?_, hupd⟩
    · rw [hnu]; rfl
    · rw [hnu]; rfl
    · rw [hnu]; rfl
    · rw [hnu, hm1]; rfl

/-- An unexpired `step1-verified` request for user id `U9`. -/
def vReg : Verification :=
  { id := "V9", userId := "U9", telegram := "bob", name := "B", phone := "1",
    code := "999999", status := "step1-verified", createdAt := 0,
    expiresAt := 1000 }

/-- The user record inserted when completing registration for `vReg`. -/
def nuReg : User := newUserRec "U9" "bob1" "pw" "B" "1" "bob" 0

/-- Witness for the C6 theorem at a concrete successful registration. -/
theorem completeRegistration_spec_witness :
    [nuReg] = ([] : List User) ++ [nuReg] ∧ nuReg.id = "U9" ∧
    nuReg.username = "bob1" ∧ nuReg.role = "student" ∧
    ∃ pre v post, [vReg] = pre ++ v :: post ∧
      v.userId = "U9" ∧ v.status = "step1-verified" ∧ (0 : Int) < v.expiresAt ∧
      nuReg.id = v.userId ∧
      [{ vReg with status := "completed" }]
        = pre ++ { v with status := "completed" } :: post :=
  (completeRegistration_spec [] [vReg] "U9" "bob1" "pw" "B" "1" "bob"
      (fun s => s) 0 (by decide) (by decide) (by decide) (by decide)
      (by decide) (by decide)).2.2
    [nuReg] [{ vReg with status := "completed" }] nuReg (by decide)

/-- **C5 (amended)**: after a successful `completeRegistration`, a second
call with the same `userId` and the same username fails with `conflict`
(the username-taken check runs before the verification lookup); the
`notFoundOrExpired` failure only arises when the retry supplies a free,
nonempty username (given that the succeeded request was the only
`step1-verified` one for this `userId`). -/
theorem completeRegistration_repeat (users : List User) (vs : List Verification)
    (uid un pw nm ph tg : String) (hash : String → String) (now : Int)
    (us2 : List User) (vs2 : List Verification) (nu : User)
    (h : completeRegistration users vs uid un pw nm ph tg hash now
      = .ok us2 vs2 nu) :
    (∀ now2 : Int,
      completeRegistration us2 vs2 uid un pw nm ph tg hash now2 = .conflict) ∧
    (∀ (now2 : Int) (un2 pw2 nm2 ph2 tg2 : String),
      un2 ≠ "" → pw2 ≠ "" → nm2 ≠ "" → ph2 ≠ "" → tg2 ≠ "" →
      us2.any (fun u2 => u2.username == un2) = false →
      vs.countP (fun v => v.userId == uid && v.status == "step1-verified") ≤ 1 →
      completeRegistration us2 vs2 uid un2 pw2 nm2 ph2 tg2 hash now2
        = .notFoundOrExpired) := by
  obtain ⟨g1, g2, g3, g4, g5, g6, hany, hset, hnu, hus⟩ :=
    completeRegistration_ok_elim users vs uid un pw nm ph tg hash now
      us2 vs2 nu h
  obtain ⟨pre, v, post, hdec, hv, hpre, hupd⟩ :=
    setStatusFirst_some_elim (regMatch uid now) "completed" vs vs2 hset
  obtain ⟨hm1, hm2, hm3⟩ := (regMatch_eq_true_iff uid now v).mp hv
  constructor
  · intro now2
    have hanyT : us2.any (fun u2 => u2.username == un) = true := by
      refine List.any_eq_true.mpr ⟨nu, ?_, ?_⟩
      · rw [hus]
        exact List.mem_append_right _ (List.mem_cons_self nu [])
      · rw [hnu]
        simp [newUserRec]
    have e0f2 : (uid == "" || un == "" || pw == "" || nm == "" || ph == "" ||
        tg == "") = false := by
      simp [g1, g2, g3, g4, g5, g6]
    simp [completeRegistration, e0f2, hanyT]
  · intro now2 un2 pw2 nm2 ph2 tg2 k1 k2 k3 k4 k5 kany hcount
    have hPv : (v.userId == uid && v.status == "step1-verified") = true := by
      simp [hm1, hm2]
    have hzero : pre.countP
          (fun w => w.userId == uid && w.status == "step1-verified") = 0 ∧
        post.countP
          (fun w => w.userId == uid && w.status == "step1-verified") = 0 := by
      rw [hdec, List.countP_append, List.countP_cons, hPv] at hcount
      simp at hcount
      omega
    have hsidef : ∀ w, w ∈ pre ∨ w ∈ post →
        regMatch uid now2 w = false := by
      intro w hw
      cases hr : regMatch uid now2 w with
      | false => rfl
      | true =>
        obtain ⟨a1, a2, _⟩ := (regMatch_eq_true_iff uid now2 w).mp hr
        have hPw : (w.userId == uid && w.status == "step1-verified") = true := by
          simp [a1, a2]
        rcases hw with hw1 | hw2
        · exact absurd hPw (List.countP_eq_zero.mp hzero.1 w hw1)
        · exact absurd hPw (List.countP_eq_zero.mp hzero.2 w hw2)
    have hall : ∀ w ∈ vs2, regMatch uid now2 w = false := by
      intro w hw
      rw [hupd] at hw
      rcases List.mem_append.mp hw with hw1 | hw2
      · exact hsidef w (Or.inl hw1)
      · rcases List.mem_cons.mp hw2 with rfl | hw3
        · simp [regMatch]
        · exact hsidef w (Or.inr hw3)
    have hset2 : setStatusFirst (regMatch uid now2) "completed" vs2 = none :=
      (setStatusFirst_none_iff (regMatch uid now2) "completed" vs2).mpr hall
    have e0f2 : (uid == "" || un2 == "" || pw2 == "" || nm2 == "" ||
        ph2 == "" || tg2 == "") = false := by
      simp [g1, k1, k2, k3, k4, k5]
    simp [completeRegistration, e0f2, kany, hset2]

/-- The users collection after completing registration for `vReg`. -/
def usersAfterReg : List User := [nuReg]

/-- The verifications collection after completing registration for `vReg`. -/
def vsAfterReg : List Verification := [{ vReg with status := "completed" }]

/-- Counterexample to C5 as stated: replaying the identical
`completeRegistration` call fails with `conflict` (username already taken),
not with `notFoundOrExpired` as the claim demands, because the username
check runs before the verification lookup. -/
theorem completeRegistration_repeat_counterexample :
    completeRegistration [] [vReg] "U9" "bob1" "pw" "B" "1" "bob"
      (fun s => s) 0 = .ok usersAfterReg vsAfterReg nuReg ∧
    completeRegistration usersAfterReg vsAfterReg "U9" "bob1" "pw" "B" "1"
      "bob" (fun s => s) 0 = .conflict ∧
    RegResult.conflict ≠ RegResult.notFoundOrExpired := by decide

/-- Witness for the amended C5 theorem: the identical retry conflicts, the
fresh-username retry gets `notFoundOrExpired`. -/
theorem completeRegistration_repeat_witness :
    completeRegistration usersAfterReg vsAfterReg "U9" "bob1" "pw" "B" "1"
      "bob" (fun s => s) 3 = .conflict ∧
    completeRegistration usersAfterReg vsAfterReg "U9" "carol" "pw" "B" "1"
      "bob" (fun s => s) 3 = .notFoundOrExpired :=
  have h := completeRegistration_repeat [] [vReg] "U9" "bob1" "pw" "B" "1"
    "bob" (fun s => s) 0 usersAfterReg vsAfterReg nuReg (by decide)
  ⟨h.1 3, h.2 3 "carol" "pw" "B" "1" "bob" (by decide) (by decide) (by decide)
    (by decide) (by decide) (by decide) (by decide)⟩

/-! ## Decimal representation of the generated code -/

/-- One unfolding step of core's `Nat.toDigitsCore` at base 10. -/
lemma toDigitsCore_succ (f n : Nat) (ds : List Char) :
    Nat.toDigitsCore 10 (f + 1) n ds =
      if n / 10 = 0 then Nat.digitChar (n % 10) :: ds
      else Nat.toDigitsCore 10 f (n / 10) (Nat.digitChar (n % 10) :: ds) := rfl

/-- With enough fuel, `Nat.toDigitsCore` produces exactly
`log 10 n + 1` digits in front of the accumulator. -/
lemma toDigitsCore_length_eq : ∀ (fuel n : Nat) (ds : List Char),
    n < 10 ^ fuel → 1 ≤ fuel →
    (Nat.toDigitsCore 10 fuel n ds).length = Nat.log 10 n + 1 + ds.length := by
  intro fuel
  induction fuel with
  | zero => intro n ds _ h1; omega
  | succ f ih =>
    intro n ds hlt _
    rw [toDigitsCore_succ]
    by_cases hdiv : n / 10 = 0
    · rw [if_pos hdiv]
      have hn10 : n < 10 := by omega
      have hlog : Nat.log 10 n = 0 := Nat.log_eq_zero_iff.mpr (Or.inl hn10)
      simp [hlog]
      omega
    · rw [if_neg hdiv]
      have h10n : 10 ≤ n := by omega
      have hf1 : 1 ≤ f := by
        by_contra hf0
        have hf : f = 0 := by omega
        rw [hf] at hlt
        simp at hlt
        omega
      have hrec : n / 10 < 10 ^ f := by
        rw [Nat.div_lt_iff_lt_mul (by norm_num : 0 < 10)]
        calc n < 10 ^ (f + 1) := hlt
        _ = 10 ^ f * 10 := by rw [Nat.pow_succ]
      rw [ih (n / 10) (Nat.digitChar (n % 10) :: ds) hrec hf1]
      have hlog : Nat.log 10 n = Nat.log 10 (n / 10) + 1 := by
        have hd := Nat.log_div_base 10 n
        have hpos : 0 < Nat.log 10 n := Nat.log_pos (by norm_num) h10n
        omega
      rw [hlog]
      simp
      omega

/-- A six-digit number (`100000 ≤ v < 1000000`) prints as six characters. -/
lemma repr_length_six (v : Nat) (h1 : 100000 ≤ v) (h2 : v < 1000000) :
    (Nat.repr v).length = 6 := by
  have hfuel : v < 10 ^ (v + 1) := by
    calc v < 10 ^ v := Nat.lt_pow_self (by norm_num) v
    _ ≤ 10 ^ (v + 1) := Nat.pow_le_pow_right (by norm_num) (Nat.le_succ v)
  have hlen := toDigitsCore_length_eq (v + 1) v [] hfuel (by omega)
  have hlog : Nat.log 10 v = 5 := by
    refine Nat.log_eq_of_pow_le_of_lt_pow ?_ ?_
    · calc (10 : ℕ) ^ 5 = 100000 := by norm_num
      _ ≤ v := h1
    · calc v < 1000000 := h2
      _ ≤ 10 ^ (5 + 1) := by norm_num
  show (Nat.toDigitsCore 10 (v + 1) v []).length = 6
  rw [hlen, hlog]
  rfl

/-- Every digit character below 10 is an ASCII digit. -/
lemma digitChar_isDigit : ∀ m : Nat, m < 10 → (Nat.digitChar m).isDigit = true := by
  decide

/-- `Nat.toDigitsCore` at base 10 only produces digit characters. -/
lemma toDigitsCore_all_digits : ∀ (fuel n : Nat) (ds : List Char),
    (∀ ch ∈ ds, ch.isDigit = true) →
    ∀ ch ∈ Nat.toDigitsCore 10 fuel n ds, ch.isDigit = true := by
  intro fuel
  induction fuel with
  | zero => intro n ds hds ch hch; exact hds ch hch
  | succ f ih =>
    intro n ds hds ch hch
    rw [toDigitsCore_succ] at hch
    have hd : (Nat.digitChar (n % 10)).isDigit = true :=
      digitChar_isDigit (n % 10) (Nat.mod_lt n (by norm_num))
    by_cases hdiv : n / 10 = 0
    · rw [if_pos hdiv] at hch
      rcases List.mem_cons.mp hch with rfl | hch2
      · exact hd
      · exact hds ch hch2
    · rw [if_neg hdiv] at hch
      refine ih (n / 10) (Nat.digitChar (n % 10) :: ds) ?_ ch hch
      intro c hc
      rcases List.mem_cons.mp hc with rfl | hc2
      · exact hd
      · exact hds c hc2

/-- **C8**: the generated code prints a number in `100000–999999` as a
six-character all-digit string; a successful `send-code` run answers with
exactly the fixed message and the fresh `userId`, and the response does not
depend on the generated code (two runs differing only in the random draw
produce identical responses). -/
theorem sendCode_code_and_response (vs : List Verification)
    (t n p uid fid : String) (rand rand2 : Nat) (now : Int)
    (ht : t ≠ "") (hn : n ≠ "") (hp : p ≠ "") :
    (∃ v2 : Nat, genCode rand = Nat.repr v2 ∧ 100000 ≤ v2 ∧ v2 ≤ 999999) ∧
    (genCode rand).length = 6 ∧
    (∀ ch ∈ (genCode rand).data, ch.isDigit = true) ∧
    (∃ out resp,
      sendCode vs t n p (genCode rand) uid fid now = .ok (out, resp) ∧
      resp = { message := sendCodeMessage, userId := uid }) ∧
    (sendCode vs t n p (genCode rand) uid fid now).map Prod.snd
      = (sendCode vs t n p (genCode rand2) uid fid now).map Prod.snd := by
  have hmod : rand % 900000 < 900000 := Nat.mod_lt rand (by norm_num)
  have hrange : 100000 ≤ 100000 + rand % 900000 ∧
      100000 + rand % 900000 ≤ 999999 := by omega
  have e1f : (t == "") = false := by simp [ht]
  have e2f : (n == "") = false := by simp [hn]
  have e3f : (p == "") = false := by simp [hp]
  refine ⟨⟨100000 + rand % 900000, rfl, hrange.1, hrange.2⟩, ?_, ?_, ?_, ?_⟩
  · exact repr_length_six _ hrange.1 (by omega)
  · intro ch hch
    exact toDigitsCore_all_digits _ _ [] (by intro c hc; cases hc) ch hch
  · exact ⟨vs.map (expireStep (cleanHandle t)) ++
        [freshVerification (cleanHandle t) n p (genCode rand) uid fid now],
      { message := sendCodeMessage, userId := uid },
      by simp only [sendCode, e1f, e2f, e3f, Bool.false_eq_true, if_false], rfl⟩
  · simp only [sendCode, e1f, e2f, e3f, Bool.false_eq_true, if_false,
      Except.map]

/-- Witness for the C8 theorem at a concrete random draw. -/
theorem sendCode_code_and_response_witness :
    (∃ v2 : Nat, genCode 42 = Nat.repr v2 ∧ 100000 ≤ v2 ∧ v2 ≤ 999999) ∧
    (genCode 42).length = 6 ∧
    (∀ ch ∈ (genCode 42).data, ch.isDigit = true) ∧
    (∃ out resp,
      sendCode [] "alice" "A" "1" (genCode 42) "U1" "V1" 0 = .ok (out, resp) ∧
      resp = { message := sendCodeMessage, userId := "U1" }) ∧
    (sendCode [] "alice" "A" "1" (genCode 42) "U1" "V1" 0).map Prod.snd
      = (sendCode [] "alice" "A" "1" (genCode 43) "U1" "V1" 0).map Prod.snd :=
  sendCode_code_and_response [] "alice" "A" "1" "U1" "V1" 42 43 0
    (by decide) (by decide) (by decide)

end TestisFT
